import Mathlib

/-
  Verification development for AI Prompt Studio (Reverse LLM Prompt Synthesis).

  The repository snapshot contains the frontend (React/TypeScript) sources and
  the documentation; the backend Python services (RLAIF optimizer, query
  designer, ChatML formatter, evaluator) are described by the README, the
  implementation plan and the specification but their source files are not in
  the snapshot.  Frontend behaviour below is translated directly from the
  TypeScript sources; backend behaviour is modelled from the specification,
  with each such definition marked `Modelled from the spec:` in its doc
  comment.

  Scores and temperatures are `float` in the implementation; they are modelled
  as rationals (`Rat`), which preserves the ordering and threshold comparisons
  the algorithms depend on.
-/

namespace PromptStudio

/-- A role-tagged chat message, from `ChatMLMessage` in
`frontend/src/services/api.ts` (`role: string; content: string`). -/
structure ChatMLMessage where
  role : String
  content : String
deriving DecidableEq

/-- A chat prompt: ordered messages plus generation parameters.  The data
model in the spec carries three generation parameters (model id, temperature,
max tokens); the frontend mirror type `ChatMLPrompt` in `api.ts` shows
`messages`, `model`, `temperature`. -/
structure ChatMLPrompt where
  messages : List ChatMLMessage
  model : String
  temperature : Rat
  max_tokens : Nat
deriving DecidableEq

/-- The expected-output specification, from `ExpectedOutput` in `api.ts`
(`template: string; description?; output_instructions?; examples?;
output_format?`). -/
structure ExpectedOutput where
  template : String
  description : Option String
  output_instructions : Option String
  examples : Option (List String)
  output_format : Option String
deriving DecidableEq

/-- The closed root-cause taxonomy, from the implementation plan
(`context_missing`, `terminology_mismatch`, `structure_mismatch`,
`ambiguity`, `retrieval_quality`). -/
inductive RootCause where
  | context_missing
  | terminology_mismatch
  | structure_mismatch
  | ambiguity
  | retrieval_quality
deriving DecidableEq

/-- Evaluation of one iteration's sample output, from `EvaluationResult` in
`api.ts`. -/
structure EvaluationResult where
  iteration : Nat
  generated_output : String
  match_score : Rat
  root_causes : List RootCause
  improvement_suggestions : List String
  is_successful : Bool
deriving DecidableEq

/-- A retrieved context chunk, from the spec's `RetrievedContext` data model
(chunk id, text, relevance score). -/
structure RetrievedContext where
  chunk_id : String
  text : String
  relevance_score : Rat
deriving DecidableEq

/-- One round of the optimization loop, from `OptimizationIteration` in
`api.ts`; `retrieved_contexts` follows the spec's data model (ordered sequence
of RetrievedContext). -/
structure OptimizationIteration where
  iteration : Nat
  query : String
  retrieved_contexts : List RetrievedContext
  generated_prompt : ChatMLPrompt
  evaluation : EvaluationResult
deriving DecidableEq

/-- The result of one optimization run, from `OptimizationResponse` in
`api.ts`. -/
structure OptimizationResult where
  final_prompt : ChatMLPrompt
  iterations : List OptimizationIteration
  total_iterations : Nat
  final_match_score : Rat
  status : String
  message : String
deriving DecidableEq

/-- An optimize request, from `OptimizationRequest` in `api.ts`
(`expected_output: ExpectedOutput; document_ids?: string[]`). -/
structure OptimizationRequest where
  expected_output : ExpectedOutput
  document_ids : Option (List String)
deriving DecidableEq

/-- An uploaded document as the frontend lists it, from `Document` in
`api.ts`. -/
structure Document where
  id : String
  filename : String
  document_type : String
  chunk_count : Nat
  created_at : String
deriving DecidableEq

/- ----------------------------------------------------------------
   Frontend guards (translated from the TypeScript sources in src/)
   ---------------------------------------------------------------- -/

/-- Drops leading whitespace characters from a character list. -/
def dropLeadingWs : List Char → List Char
  | [] => []
  | c :: cs => if c.isWhitespace then dropLeadingWs cs else c :: cs

/-- Model of JavaScript `String.prototype.trim`: removes leading and trailing
whitespace (structurally on the character list, so that concrete instances
evaluate). -/
def jsTrim (s : String) : String :=
  String.mk (dropLeadingWs (dropLeadingWs s.data.reverse).reverse)

/-- `handleOptimize` of `ExpectedOutputEditor`: returns without calling
`onOptimize` when the trimmed template is empty (`!template.trim()`),
otherwise builds the `ExpectedOutput` payload (`description || undefined`,
`output_instructions || undefined`, `output_format` always set). -/
def editorHandleOptimize (template description outputInstructions
    outputFormat : String) : Option ExpectedOutput :=
  if jsTrim template = "" then none
  else some
    { template := template
      description := if description = "" then none else some description
      output_instructions :=
        if outputInstructions = "" then none else some outputInstructions
      examples := none
      output_format := some outputFormat }

/-- The Generate Prompt button's `disabled` condition in
`ExpectedOutputEditor`: `!template.trim() || isOptimizing || !hasDocuments`. -/
def generateButtonDisabled (template : String)
    (isOptimizing hasDocuments : Bool) : Bool :=
  (jsTrim template = "") || isOptimizing || !hasDocuments

/-- What `App.handleOptimize` does with a candidate request: either surface an
error message (optionally opening the config panel) or send the request. -/
inductive AppOptimizeAction where
  | showError (msg : String) (openConfig : Bool)
  | sendRequest (req : OptimizationRequest)
deriving DecidableEq

/-- `handleOptimize` in `App.tsx`: errors out when the LLM is not configured
or no documents are uploaded; otherwise issues `optimizePrompt` with a request
holding only `expected_output` (the optional `document_ids` field is never
populated). -/
def appHandleOptimize (isConfigured : Bool) (documentsCount : Nat)
    (eo : ExpectedOutput) : AppOptimizeAction :=
  if !isConfigured then
    AppOptimizeAction.showError "Please configure your LLM API key first" true
  else if documentsCount = 0 then
    AppOptimizeAction.showError "Please upload at least one document first" false
  else
    AppOptimizeAction.sendRequest
      { expected_output := eo, document_ids := none }

/-- The composed UI path from a click on Generate Prompt to the action taken:
the button must be enabled (App passes `hasDocuments := documents.length > 0`),
then the editor guard runs, then `App.handleOptimize`.  `none` means no action
reaches the backend. -/
def uiOptimizeFlow (template description outputInstructions
    outputFormat : String) (isOptimizing isConfigured : Bool)
    (documents : List Document) : Option AppOptimizeAction :=
  if generateButtonDisabled template isOptimizing
      (decide (0 < documents.length)) then none
  else
    match editorHandleOptimize template description outputInstructions
        outputFormat with
    | none => none
    | some eo => some (appHandleOptimize isConfigured documents.length eo)

/- ----------------------------------------------------------------
   Backend core (the Python services are absent from the snapshot;
   every definition below is modelled from the specification)
   ---------------------------------------------------------------- -/

/-- Modelled from the spec: the run configuration of the missing
`rlaif_optimizer.py` / `config.py` backend (min/max iteration bounds, success
threshold 0.85 by default, and the generation parameters passed to prompt
assembly). -/
structure OptimizerConfig where
  minIterations : Nat
  maxIterations : Nat
  successThreshold : Rat
  model : String
  temperature : Rat
  maxTokens : Nat

/-- Modelled from the spec: the output-format constraint line the missing
`chatml_formatter.py` puts into the system message. -/
def formatConstraint : Option String → String
  | some f => "Output format: " ++ f
  | none => "Output format: text"

/-- Modelled from the spec: the style-instruction block of the system
message. -/
def styleBlock : Option String → String
  | some s => "\nStyle instructions:\n" ++ s
  | none => ""

/-- Modelled from the spec: the system message built by the missing
`chatml_formatter.py` — the literal template to reproduce, the output-format
constraint, and any style instructions. -/
def buildSystemMessage (spec : ExpectedOutput) : String :=
  "Reproduce exactly this output structure:\n" ++ spec.template ++ "\n"
    ++ formatConstraint spec.output_format
    ++ styleBlock spec.output_instructions

/-- Modelled from the spec: one context passage, attributable to its source
chunk. -/
def contextPassage (c : RetrievedContext) : String :=
  "[Source " ++ c.chunk_id ++ "]\n" ++ c.text

/-- Modelled from the spec: the information request closing the user
message. -/
def informationRequest (spec : ExpectedOutput) : String :=
  match spec.description with
  | some d => "Provide the information requested: " ++ d
  | none => "Provide the information required to fill the expected output."

/-- Modelled from the spec: the user message built by the missing
`chatml_formatter.py` — the retrieved passages in their ranked order followed
by the information request. -/
def buildUserMessage (spec : ExpectedOutput)
    (ctxs : List RetrievedContext) : String :=
  String.intercalate "\n\n" (ctxs.map contextPassage)
    ++ "\n\n" ++ informationRequest spec

/-- Modelled from the spec: the Prompt Assembler of the missing
`chatml_formatter.py` — a pure function of the expected-output spec (which
carries the output instructions), the ordered retrieved context, and the
generation parameters of the configuration. -/
def assemblePrompt (cfg : OptimizerConfig) (spec : ExpectedOutput)
    (ctxs : List RetrievedContext) : ChatMLPrompt :=
  { messages :=
      [ { role := "system", content := buildSystemMessage spec }
      , { role := "user", content := buildUserMessage spec ctxs } ]
    model := cfg.model
    temperature := cfg.temperature
    max_tokens := cfg.maxTokens }

/-- Modelled from the spec: the wire format rendered by the missing export
endpoint of `chatml_formatter.py` — the ordered role/content message array
plus the model, temperature and max-token fields. -/
structure OpenAIFormat where
  messages : List ChatMLMessage
  model : String
  temperature : Rat
  max_tokens : Nat
deriving DecidableEq

/-- Modelled from the spec: the human-readable rendering of one message. -/
def renderMessage (m : ChatMLMessage) : String :=
  "[" ++ m.role ++ "]\n" ++ m.content

/-- Modelled from the spec: the human-readable rendering returned next to the
wire format. -/
def renderReadable (p : ChatMLPrompt) : String :=
  String.intercalate "\n\n" (p.messages.map renderMessage)
    ++ "\n\nmodel: " ++ p.model

/-- Modelled from the spec: the export entry point of the missing
`/api/prompts/export` route — renders a ChatPrompt into the wire format
consumed by generation providers plus a human-readable rendering. -/
def exportPrompt (p : ChatMLPrompt) : OpenAIFormat × String :=
  ( { messages := p.messages
      model := p.model
      temperature := p.temperature
      max_tokens := p.max_tokens }
  , renderReadable p )

/-- Modelled from the spec: re-importing a wire-format prompt reconstructs the
ChatPrompt (ordered messages and generation parameters). -/
def importPrompt (w : OpenAIFormat) : ChatMLPrompt :=
  { messages := w.messages
    model := w.model
    temperature := w.temperature
    max_tokens := w.max_tokens }

/-- Modelled from the spec: the external collaborators of one optimization run
of the missing `rlaif_optimizer.py` — the initial query from template
analysis, the query-refinement call, retrieval, sample generation (returning
`none` when an unrecoverable external failure ends the run), and the
evaluator's score / root causes / suggestions.  The natural number argument is
the iteration index, so the collaborators may answer differently in different
rounds (they are nondeterministic LLM calls). -/
structure LoopEnv where
  initialQuery : String
  refine : String → EvaluationResult → String
  retrieve : Nat → String → List RetrievedContext
  generate : Nat → ChatMLPrompt → Option String
  score : Nat → String → Rat
  causes : Nat → String → List RootCause
  suggestions : Nat → String → List String

/-- Modelled from the spec: how the evaluator's answer for one iteration is
packaged, with `is_successful` derived as `match_score >= success_threshold`. -/
def evalOutput (cfg : OptimizerConfig) (env : LoopEnv) (iter : Nat)
    (output : String) : EvaluationResult :=
  { iteration := iter
    generated_output := output
    match_score := env.score iter output
    root_causes := env.causes iter output
    improvement_suggestions := env.suggestions iter output
    is_successful := decide (cfg.successThreshold ≤ env.score iter output) }

/-- Modelled from the spec: the stopping policy of the missing
`rlaif_optimizer.py` — stop when
`(iteration >= min_iterations) AND (is_successful OR iteration == max_iterations)`. -/
def stopCondition (cfg : OptimizerConfig) (iter : Nat)
    (ev : EvaluationResult) : Bool :=
  decide (cfg.minIterations ≤ iter)
    && (ev.is_successful || decide (iter = cfg.maxIterations))

/-- How one run ended: normally, by an unrecoverable generation failure, or by
a convergence stall (refinement reproduced the previous query). -/
inductive RunOutcome where
  | completed
  | generationFailure
  | convergenceStall
deriving DecidableEq

/-- Modelled from the spec: the iteration loop of the missing
`rlaif_optimizer.py`.  `fuel` is the number of rounds still allowed by the
`for iteration = 1..max_iterations` bound; each round retrieves context,
assembles the prompt, generates a sample (aborting the run on unrecoverable
failure), evaluates it, records the iteration, applies the stopping policy,
and otherwise refines the query — aborting with a convergence stall when the
refinement reproduces the previous query string. -/
def loopGo (cfg : OptimizerConfig) (env : LoopEnv) (spec : ExpectedOutput) :
    Nat → Nat → String → List OptimizationIteration × RunOutcome
  | 0, _, _ => ([], RunOutcome.completed)
  | fuel + 1, iter, query =>
    let ctxs := env.retrieve iter query
    let prompt := assemblePrompt cfg spec ctxs
    match env.generate iter prompt with
    | none => ([], RunOutcome.generationFailure)
    | some output =>
      let ev := evalOutput cfg env iter output
      let record : OptimizationIteration :=
        { iteration := iter
          query := query
          retrieved_contexts := ctxs
          generated_prompt := prompt
          evaluation := ev }
      if stopCondition cfg iter ev then ([record], RunOutcome.completed)
      else
        let nextQuery := env.refine query ev
        if nextQuery = query then ([record], RunOutcome.convergenceStall)
        else
          let rest := loopGo cfg env spec fuel (iter + 1) nextQuery
          (record :: rest.1, rest.2)

/-- Modelled from the spec: one full optimization run — iterations start at 1
with the initial query, bounded by `max_iterations` rounds. -/
def runLoop (cfg : OptimizerConfig) (env : LoopEnv) (spec : ExpectedOutput) :
    List OptimizationIteration × RunOutcome :=
  loopGo cfg env spec cfg.maxIterations 1 env.initialQuery

/-- Modelled from the spec: selection of the best iteration — maximum
`match_score`, ties broken by the earliest iteration. -/
def bestIteration : List OptimizationIteration → Option OptimizationIteration
  | [] => none
  | it :: rest =>
    match bestIteration rest with
    | none => some it
    | some b =>
      if it.evaluation.match_score < b.evaluation.match_score then some b
      else some it

/-- Modelled from the spec: the explanatory message attached to the result. -/
def outcomeMessage : RunOutcome → String
  | RunOutcome.completed => "Optimization completed"
  | RunOutcome.generationFailure =>
      "Generation failed after retries; partial results preserved"
  | RunOutcome.convergenceStall =>
      "Convergence stall: query refinement repeated the previous query"

/-- Modelled from the spec: the degenerate result of a run whose trace is
empty (an unrecoverable failure before any iteration completed). -/
def emptyRunResult (cfg : OptimizerConfig) (spec : ExpectedOutput)
    (outcome : RunOutcome) : OptimizationResult :=
  { final_prompt := assemblePrompt cfg spec []
    iterations := []
    total_iterations := 0
    final_match_score := 0
    status := "partial"
    message := outcomeMessage outcome }

/-- Modelled from the spec: building the `OptimizationResult` after the loop —
the best iteration supplies `final_prompt` and `final_match_score`; `status`
is `success` exactly when the run completed normally and the best score meets
the threshold, `partial` otherwise (in particular whenever a fatal failure
truncated the run). -/
def buildResult (cfg : OptimizerConfig) (spec : ExpectedOutput)
    (trace : List OptimizationIteration) (outcome : RunOutcome) :
    OptimizationResult :=
  match bestIteration trace with
  | none => emptyRunResult cfg spec outcome
  | some best =>
    { final_prompt := best.generated_prompt
      iterations := trace
      total_iterations := trace.length
      final_match_score := best.evaluation.match_score
      status :=
        if outcome = RunOutcome.completed then
          if cfg.successThreshold ≤ best.evaluation.match_score then "success"
          else "partial"
        else "partial"
      message := outcomeMessage outcome }

/-- The error taxonomy member raised before the loop starts. -/
inductive OptimizeError where
  | validationError (msg : String)
deriving DecidableEq

/-- Modelled from the spec: the message of the validation rejection. -/
def validationMessage : String :=
  "Expected output template must not be empty"

/-- Modelled from the spec: the optimize entry point of the missing
`/api/prompts/optimize` route — a request whose template is empty or
whitespace-only is rejected with a `ValidationError` before the loop starts;
otherwise the run executes and its result is built. -/
def runOptimization (cfg : OptimizerConfig) (env : LoopEnv)
    (req : OptimizationRequest) :
    Except OptimizeError (OptimizationResult × RunOutcome) :=
  if jsTrim req.expected_output.template = "" then
    Except.error (OptimizeError.validationError validationMessage)
  else
    let run := runLoop cfg env req.expected_output
    Except.ok (buildResult cfg req.expected_output run.1 run.2, run.2)

/-- Total iterations observed by the caller: an error response ran zero
iterations. -/
def totalIterationsOf
    (r : Except OptimizeError (OptimizationResult × RunOutcome)) : Nat :=
  match r with
  | Except.error _ => 0
  | Except.ok (result, _) => result.total_iterations

/- ----------------------------------------------------------------
   Concrete instances used by witnesses and counterexamples
   ---------------------------------------------------------------- -/

/-- The documented default configuration: 3 to 5 iterations, threshold 0.85,
gpt-4 at temperature 0.7 with 2000 max tokens. -/
def defaultCfg : OptimizerConfig :=
  { minIterations := 3
    maxIterations := 5
    successThreshold := mkRat 85 100
    model := "gpt-4"
    temperature := mkRat 7 10
    maxTokens := 2000 }

/-- The spec's scenario template: an enumerated list of two lines. -/
def sampleSpecInput : ExpectedOutput :=
  { template := "1. Name\n2. Budget"
    description := none
    output_instructions := none
    examples := none
    output_format := some "list" }

/-- A request carrying the sample spec, unscoped. -/
def sampleReq : OptimizationRequest :=
  { expected_output := sampleSpecInput, document_ids := none }

/-- A request whose template is whitespace-only. -/
def blankReq : OptimizationRequest :=
  { expected_output :=
      { template := "   "
        description := none
        output_instructions := none
        examples := none
        output_format := some "text" }
    document_ids := none }

/-- An environment whose evaluator scores 0.9 on the first iteration and 0
afterwards, with non-repeating refinement and reliable generation. -/
def firstOnlyEnv : LoopEnv :=
  { initialQuery := "q"
    refine := fun q _ => q ++ "+"
    retrieve := fun _ _ => []
    generate := fun _ _ => some "sample output"
    score := fun iter _ => if iter = 1 then mkRat 9 10 else 0
    causes := fun _ _ => [RootCause.context_missing]
    suggestions := fun _ _ => [] }

/-- An environment whose evaluator always meets the threshold, with
non-repeating refinement and reliable generation. -/
def allSuccessEnv : LoopEnv :=
  { initialQuery := "q"
    refine := fun q _ => q ++ "+"
    retrieve := fun _ _ => []
    generate := fun _ _ => some "sample output"
    score := fun _ _ => 1
    causes := fun _ _ => []
    suggestions := fun _ _ => [] }

/-- An environment whose refinement reproduces the previous query and whose
evaluator never meets the threshold. -/
def stallIdEnv : LoopEnv :=
  { initialQuery := "q"
    refine := fun q _ => q
    retrieve := fun _ _ => []
    generate := fun _ _ => some "sample output"
    score := fun _ _ => 0
    causes := fun _ _ => [RootCause.ambiguity]
    suggestions := fun _ _ => [] }

/-- The result the optimizer computes for the sample request in the
first-success environment. -/
def sampleRunResult : OptimizationResult :=
  buildResult defaultCfg sampleSpecInput
    (runLoop defaultCfg firstOnlyEnv sampleSpecInput).1
    (runLoop defaultCfg firstOnlyEnv sampleSpecInput).2

/-- A placeholder iteration record used as the default of safe lookups. -/
def dummyIteration : OptimizationIteration :=
  { iteration := 0
    query := ""
    retrieved_contexts := []
    generated_prompt :=
      { messages := [], model := "", temperature := 0, max_tokens := 0 }
    evaluation :=
      { iteration := 0
        generated_output := ""
        match_score := 0
        root_causes := []
        improvement_suggestions := []
        is_successful := false } }

/-- The `n`-th iteration recorded by the sample run in `firstOnlyEnv`. -/
def traceAt (n : Nat) : OptimizationIteration :=
  ((runLoop defaultCfg firstOnlyEnv sampleSpecInput).1.get? n).getD
    dummyIteration

/-- A concrete uploaded document. -/
def sampleDoc : Document :=
  { id := "d1"
    filename := "a.txt"
    document_type := "txt"
    chunk_count := 1
    created_at := "2025-01-01" }

/-- The request the UI sends for template `1. Name`, empty optional fields, and
format `text`. -/
def uiSampleRequest : OptimizationRequest :=
  { expected_output :=
      { template := "1. Name"
        description := none
        output_instructions := none
        examples := none
        output_format := some "text" }
    document_ids := none }

/- ----------------------------------------------------------------
   Theorems
   ---------------------------------------------------------------- -/

/-- C5: prompt assembly is deterministic — two invocations of the Prompt
Assembler on identical inputs (same expected-output spec, which carries the
output instructions, same ordered retrieved-context list, same generation
configuration) return identical ChatPrompt content. -/
theorem assembly_deterministic (cfg₁ cfg₂ : OptimizerConfig)
    (s₁ s₂ : ExpectedOutput) (c₁ c₂ : List RetrievedContext)
    (hcfg : cfg₁ = cfg₂) (hs : s₁ = s₂) (hc : c₁ = c₂) :
    assemblePrompt cfg₁ s₁ c₁ = assemblePrompt cfg₂ s₂ c₂ := by
  subst hcfg
  subst hs
  subst hc
  rfl

/-- Witness for C5 at a concrete configuration, spec and context list. -/
theorem assembly_deterministic_witness :
    assemblePrompt defaultCfg sampleSpecInput []
      = assemblePrompt defaultCfg sampleSpecInput [] :=
  assembly_deterministic defaultCfg defaultCfg sampleSpecInput sampleSpecInput
    [] [] rfl rfl rfl

/-- C6: a request whose template is empty or whitespace-only is rejected with
the validation error before any loop iteration runs — the answer is the
`ValidationError`, it does not depend on the loop's collaborators, and the
observed iteration count is 0. -/
theorem blank_template_rejected (cfg : OptimizerConfig) (env : LoopEnv)
    (req : OptimizationRequest)
    (h : jsTrim req.expected_output.template = "") :
    runOptimization cfg env req
      = Except.error (OptimizeError.validationError validationMessage) ∧
    totalIterationsOf (runOptimization cfg env req) = 0 := by
  refine ⟨?_, ?_⟩
  · simp [runOptimization, h]
  · simp [runOptimization, h, totalIterationsOf]

/-- Witness for C6 at the whitespace-only request. -/
theorem blank_template_rejected_witness :
    runOptimization defaultCfg firstOnlyEnv blankReq
      = Except.error (OptimizeError.validationError validationMessage) ∧
    totalIterationsOf (runOptimization defaultCfg firstOnlyEnv blankReq) = 0 :=
  blank_template_rejected defaultCfg firstOnlyEnv blankReq (by decide)

/-- C7: exporting a ChatPrompt yields the wire format — the ordered
role/content message array together with the model, temperature and max-token
generation parameters, all preserved from the prompt — plus the human-readable
rendering. -/
theorem export_preserves_messages_and_params (p : ChatMLPrompt) :
    (exportPrompt p).1.messages = p.messages ∧
    (exportPrompt p).1.model = p.model ∧
    (exportPrompt p).1.temperature = p.temperature ∧
    (exportPrompt p).1.max_tokens = p.max_tokens ∧
    (exportPrompt p).2 = renderReadable p :=
  ⟨rfl, rfl, rfl, rfl, rfl⟩

/-- C8: export/import round-trip — re-importing the wire format of an exported
ChatPrompt reconstructs the same ordered message sequence and the same
generation parameters. -/
theorem export_import_roundtrip (p : ChatMLPrompt) :
    importPrompt (exportPrompt p).1 = p := rfl

/-- C9: the UI issues an optimize request only when the (trimmed) template is
non-blank, at least one document is uploaded, and the LLM is configured — the
button gate, the editor guard and the App guard together block every other
path. -/
theorem ui_sends_only_validated_requests
    (template description outputInstructions outputFormat : String)
    (isOptimizing isConfigured : Bool) (documents : List Document)
    (req : OptimizationRequest)
    (h : uiOptimizeFlow template description outputInstructions outputFormat
          isOptimizing isConfigured documents
        = some (AppOptimizeAction.sendRequest req)) :
    jsTrim req.expected_output.template ≠ "" ∧ documents.length ≠ 0 ∧
      isConfigured = true ∧ req.expected_output.template = template := by
  by_cases hd : generateButtonDisabled template isOptimizing
      (decide (0 < documents.length)) = true
  · simp [uiOptimizeFlow, hd] at h
  · by_cases hb : jsTrim template = ""
    · simp [uiOptimizeFlow, editorHandleOptimize, hd, hb] at h
    · by_cases hc : isConfigured
      · by_cases hdc : documents.length = 0
        · simp [uiOptimizeFlow, editorHandleOptimize, appHandleOptimize,
            hd, hb, hc, hdc] at h
        · simp [uiOptimizeFlow, editorHandleOptimize, appHandleOptimize,
            hd, hb, hc, hdc] at h
          subst h
          exact ⟨hb, hdc, hc, rfl⟩
      · simp [uiOptimizeFlow, editorHandleOptimize, appHandleOptimize,
          hd, hb, hc] at h

/-- Witness for C9: the concrete UI state (template `1. Name`, one document,
configured LLM) leads to a request with a non-blank template. -/
theorem ui_sends_only_validated_requests_witness :
    jsTrim uiSampleRequest.expected_output.template ≠ "" ∧
      [sampleDoc].length ≠ 0 ∧ true = true ∧
      uiSampleRequest.expected_output.template = "1. Name" :=
  ui_sends_only_validated_requests "1. Name" "" "" "text" false true
    [sampleDoc] uiSampleRequest (by decide)

/-- C10: every request `App.handleOptimize` actually sends carries only the
expected output — the optional `document_ids` scope is never populated. -/
theorem app_requests_unscoped (isConfigured : Bool) (documentsCount : Nat)
    (eo : ExpectedOutput) (req : OptimizationRequest)
    (h : appHandleOptimize isConfigured documentsCount eo
        = AppOptimizeAction.sendRequest req) :
    req.document_ids = none ∧ req.expected_output = eo := by
  by_cases hc : isConfigured
  · by_cases hdc : documentsCount = 0
    · simp [appHandleOptimize, hc, hdc] at h
    · simp [appHandleOptimize, hc, hdc] at h
      subst h
      exact ⟨rfl, rfl⟩
  · simp [appHandleOptimize, hc] at h

/-- Witness for C10 at a configured app with one document. -/
theorem app_requests_unscoped_witness :
    uiSampleRequest.document_ids = none ∧
      uiSampleRequest.expected_output = uiSampleRequest.expected_output :=
  app_requests_unscoped true 1 uiSampleRequest.expected_output
    uiSampleRequest (by decide)

/-- Helper: appending a character changes a string. -/
theorem append_plus_ne (q : String) : q ++ "+" ≠ q := by
  intro h
  have h2 := congrArg String.length h
  simp [String.length_append] at h2
  exact absurd h2 (by decide)

/-- Helper: `bestIteration` of a non-empty trace is the earliest iteration
achieving the maximum match score: every score is at most its score, and every
strictly earlier iteration scores strictly less. -/
theorem bestIteration_argmax :
    ∀ (trace : List OptimizationIteration), trace ≠ [] →
    ∃ (i : Nat) (it : OptimizationIteration),
      trace.get? i = some it ∧
      bestIteration trace = some it ∧
      (∀ (j : Nat) (jt : OptimizationIteration), trace.get? j = some jt →
        jt.evaluation.match_score ≤ it.evaluation.match_score) ∧
      (∀ (j : Nat) (jt : OptimizationIteration), trace.get? j = some jt →
        j < i → jt.evaluation.match_score < it.evaluation.match_score)
  | [], h => absurd rfl h
  | a :: t, _ => by
    by_cases htne : t = []
    · subst htne
      refine ⟨0, a, rfl, by simp [bestIteration], ?_, ?_⟩
      · intro j jt hj
        cases j with
        | zero =>
          cases Option.some.inj hj
          exact le_refl _
        | succ k => simp at hj
      · intro j jt hj hji
        exact absurd hji (Nat.not_lt_zero j)
    · obtain ⟨i, it, hget, heq, hmax, hstrict⟩ := bestIteration_argmax t htne
      by_cases hcmp :
          a.evaluation.match_score < it.evaluation.match_score
      · refine ⟨i + 1, it, by simpa using hget, ?_, ?_, ?_⟩
        · simp only [bestIteration, heq]
          rw [if_pos hcmp]
        · intro j jt hj
          cases j with
          | zero =>
            cases Option.some.inj hj
            exact le_of_lt hcmp
          | succ k =>
            exact hmax k jt (by simpa using hj)
        · intro j jt hj hji
          cases j with
          | zero =>
            cases Option.some.inj hj
            exact hcmp
          | succ k =>
            exact hstrict k jt (by simpa using hj)
              (Nat.lt_of_succ_lt_succ hji)
      · refine ⟨0, a, rfl, ?_, ?_, ?_⟩
        · simp only [bestIteration, heq]
          rw [if_neg hcmp]
        · intro j jt hj
          cases j with
          | zero =>
            cases Option.some.inj hj
            exact le_refl _
          | succ k =>
            exact le_trans (hmax k jt (by simpa using hj))
              (not_lt.mp hcmp)
        · intro j jt hj hji
          exact absurd hji (Nat.not_lt_zero j)

/-- Helper: the loop records at most `fuel` iterations. -/
theorem loopGo_length_le (cfg : OptimizerConfig) (env : LoopEnv)
    (spec : ExpectedOutput) :
    ∀ (fuel iter : Nat) (query : String),
      (loopGo cfg env spec fuel iter query).1.length ≤ fuel := by
  intro fuel
  induction fuel with
  | zero =>
    intro iter query
    simp [loopGo]
  | succ f ih =>
    intro iter query
    cases hgen : env.generate iter
        (assemblePrompt cfg spec (env.retrieve iter query)) with
    | none => simp [loopGo, hgen]
    | some output =>
      by_cases hstop :
          stopCondition cfg iter (evalOutput cfg env iter output) = true
      · simp [loopGo, hgen, hstop]
      · by_cases hq :
            env.refine query (evalOutput cfg env iter output) = query
        · simp [loopGo, hgen, hstop, hq]
        · simp only [loopGo, hgen, hstop, hq, if_false, List.length_cons]
          have := ih (iter + 1)
              (env.refine query (evalOutput cfg env iter output))
          simpa [hstop, hq] using Nat.succ_le_succ this

/-- Helper: a run that completed normally never stopped before the floor —
counting the rounds already done, it reaches at least `min_iterations`. -/
theorem loopGo_completed_min (cfg : OptimizerConfig) (env : LoopEnv)
    (spec : ExpectedOutput)
    (hle : cfg.minIterations ≤ cfg.maxIterations) :
    ∀ (fuel iter : Nat) (query : String),
      iter + fuel = cfg.maxIterations + 1 →
      (loopGo cfg env spec fuel iter query).2 = RunOutcome.completed →
      cfg.minIterations + 1
        ≤ iter + (loopGo cfg env spec fuel iter query).1.length := by
  intro fuel
  induction fuel with
  | zero =>
    intro iter query hinv _
    simp only [loopGo, List.length_nil]
    omega
  | succ f ih =>
    intro iter query hinv hout
    cases hgen : env.generate iter
        (assemblePrompt cfg spec (env.retrieve iter query)) with
    | none =>
      simp only [loopGo, hgen] at hout
      exact absurd hout (by simp)
    | some output =>
      by_cases hstop :
          stopCondition cfg iter (evalOutput cfg env iter output) = true
      · have hmin : cfg.minIterations ≤ iter := by
          have h2 := hstop
          simp only [stopCondition, Bool.and_eq_true, decide_eq_true_eq]
            at h2
          exact h2.1
        simp [loopGo, hgen, hstop]
        omega
      · by_cases hq :
            env.refine query (evalOutput cfg env iter output) = query
        · simp only [loopGo, hgen] at hout
          simp [hstop, hq] at hout
        · have hout' :
              (loopGo cfg env spec f (iter + 1)
                (env.refine query (evalOutput cfg env iter output))).2
                = RunOutcome.completed := by
            simp only [loopGo, hgen] at hout
            simpa [hstop, hq] using hout
          have hrec := ih (iter + 1)
              (env.refine query (evalOutput cfg env iter output))
              (by omega) hout'
          simp [loopGo, hgen, hstop, hq]
          omega

/-- Helper: recorded iteration indices are contiguous, starting at the round
the loop was entered with. -/
theorem loopGo_iteration_index (cfg : OptimizerConfig) (env : LoopEnv)
    (spec : ExpectedOutput) :
    ∀ (fuel iter : Nat) (query : String) (j : Nat)
      (jt : OptimizationIteration),
      (loopGo cfg env spec fuel iter query).1.get? j = some jt →
      jt.iteration = iter + j := by
  intro fuel
  induction fuel with
  | zero =>
    intro iter query j jt hj
    simp [loopGo] at hj
  | succ f ih =>
    intro iter query j jt hj
    cases hgen : env.generate iter
        (assemblePrompt cfg spec (env.retrieve iter query)) with
    | none =>
      simp [loopGo, hgen] at hj
    | some output =>
      by_cases hstop :
          stopCondition cfg iter (evalOutput cfg env iter output) = true
      · simp only [loopGo, hgen] at hj
        simp [hstop] at hj
        cases j with
        | zero =>
          simp at hj
          subst hj
          rfl
        | succ k => simp at hj
      · by_cases hq :
            env.refine query (evalOutput cfg env iter output) = query
        · simp only [loopGo, hgen] at hj
          simp [hstop, hq] at hj
          cases j with
          | zero =>
            simp at hj
            subst hj
            rfl
          | succ k => simp at hj
        · simp only [loopGo, hgen] at hj
          simp only [hstop, hq] at hj
          cases j with
          | zero =>
            simp at hj
            subst hj
            rfl
          | succ k =>
            have hk := ih (iter + 1)
                (env.refine query (evalOutput cfg env iter output)) k jt
                (by simpa [hstop, hq] using hj)
            omega

/-- Helper: the first recorded iteration, if any, used the query the loop was
entered with. -/
theorem loopGo_head_query (cfg : OptimizerConfig) (env : LoopEnv)
    (spec : ExpectedOutput) (fuel iter : Nat) (query : String)
    (it : OptimizationIteration)
    (h : (loopGo cfg env spec fuel iter query).1.get? 0 = some it) :
    it.query = query := by
  cases fuel with
  | zero => simp [loopGo] at h
  | succ f =>
    cases hgen : env.generate iter
        (assemblePrompt cfg spec (env.retrieve iter query)) with
    | none =>
      simp [loopGo, hgen] at h
    | some output =>
      by_cases hstop :
          stopCondition cfg iter (evalOutput cfg env iter output) = true
      · simp only [loopGo, hgen] at h
        simp [hstop] at h
        subst h
        rfl
      · by_cases hq :
            env.refine query (evalOutput cfg env iter output) = query
        · simp only [loopGo, hgen] at h
          simp [hstop, hq] at h
          subst h
          rfl
        · simp only [loopGo, hgen] at h
          simp [hstop, hq] at h
          subst h
          rfl

/-- Helper: two consecutively recorded iterations never used the same query —
the loop aborts with a stall before recording a repeat. -/
theorem loopGo_adjacent_queries (cfg : OptimizerConfig) (env : LoopEnv)
    (spec : ExpectedOutput) :
    ∀ (fuel iter : Nat) (query : String) (j : Nat)
      (it it1 : OptimizationIteration),
      (loopGo cfg env spec fuel iter query).1.get? j = some it →
      (loopGo cfg env spec fuel iter query).1.get? (j + 1) = some it1 →
      it.query ≠ it1.query := by
  intro fuel
  induction fuel with
  | zero =>
    intro iter query j it it1 h1 h2
    simp [loopGo] at h1
  | succ f ih =>
    intro iter query j it it1 h1 h2
    cases hgen : env.generate iter
        (assemblePrompt cfg spec (env.retrieve iter query)) with
    | none =>
      simp [loopGo, hgen] at h1
    | some output =>
      by_cases hstop :
          stopCondition cfg iter (evalOutput cfg env iter output) = true
      · simp only [loopGo, hgen] at h2
        simp [hstop] at h2
      · by_cases hq :
            env.refine query (evalOutput cfg env iter output) = query
        · simp only [loopGo, hgen] at h2
          simp [hstop, hq] at h2
        · simp only [loopGo, hgen] at h1 h2
          simp only [hstop, hq] at h1 h2
          cases j with
          | zero =>
            simp at h1
            subst h1
            have hh : it1.query
                = env.refine query (evalOutput cfg env iter output) :=
              loopGo_head_query cfg env spec f (iter + 1)
                (env.refine query (evalOutput cfg env iter output)) it1
                (by simpa [hstop, hq] using h2)
            intro hcontra
            exact hq (by rw [← hh, ← hcontra])
          | succ k =>
            exact ih (iter + 1)
              (env.refine query (evalOutput cfg env iter output)) k it it1
              (by simpa [hstop, hq] using h1)
              (by simpa [hstop, hq] using h2)

/-- Helper: with an evaluator that always meets the threshold, reliable
generation and non-repeating refinement, the loop entered at a round at or
below the floor stops exactly when the floor is reached. -/
theorem loopGo_all_success (cfg : OptimizerConfig) (env : LoopEnv)
    (spec : ExpectedOutput)
    (hth : ∀ i out, cfg.successThreshold ≤ env.score i out)
    (hgen : ∀ i p, env.generate i p ≠ none)
    (hrefine : ∀ q ev, env.refine q ev ≠ q)
    (hle : cfg.minIterations ≤ cfg.maxIterations) :
    ∀ (fuel iter : Nat) (query : String),
      iter + fuel = cfg.maxIterations + 1 →
      iter ≤ cfg.minIterations →
      (loopGo cfg env spec fuel iter query).1.length + iter
          = cfg.minIterations + 1 ∧
      (loopGo cfg env spec fuel iter query).2 = RunOutcome.completed := by
  intro fuel
  induction fuel with
  | zero =>
    intro iter query hinv hfloor
    omega
  | succ f ih =>
    intro iter query hinv hfloor
    cases hg : env.generate iter
        (assemblePrompt cfg spec (env.retrieve iter query)) with
    | none => exact absurd hg (hgen iter _)
    | some output =>
      have hsucc :
          (evalOutput cfg env iter output).is_successful = true := by
        simp only [evalOutput]
        exact decide_eq_true (hth iter output)
      by_cases hiter : cfg.minIterations ≤ iter
      · have hstop :
            stopCondition cfg iter (evalOutput cfg env iter output)
              = true := by
          simp [stopCondition, hiter, hsucc]
        simp [loopGo, hg, hstop]
        omega
      · have hstop :
            ¬ stopCondition cfg iter (evalOutput cfg env iter output)
              = true := by
          simp [stopCondition, hiter]
        have hq : ¬ env.refine query (evalOutput cfg env iter output)
            = query := hrefine query _
        obtain ⟨hrec1, hrec2⟩ := ih (iter + 1)
            (env.refine query (evalOutput cfg env iter output))
            (by omega) (by omega)
        simp [loopGo, hg, hstop, hq, hrec2]
        omega

/-- Helper: `bestIteration` answers on every non-empty trace. -/
theorem bestIteration_isSome (a : OptimizationIteration)
    (t : List OptimizationIteration) :
    (bestIteration (a :: t)).isSome = true := by
  simp only [bestIteration]
  cases bestIteration t with
  | none => rfl
  | some b =>
    show (if a.evaluation.match_score < b.evaluation.match_score
        then some b else some a).isSome = true
    split <;> rfl

/-- Helper: `bestIteration` only returns `none` on the empty trace. -/
theorem bestIteration_eq_none_iff (trace : List OptimizationIteration)
    (h : bestIteration trace = none) : trace = [] := by
  cases trace with
  | nil => rfl
  | cons a t =>
    exfalso
    have hs := bestIteration_isSome a t
    rw [h] at hs
    simp at hs

/-- C1: for a run the optimizer completed normally with a non-empty trace,
`final_match_score` is the maximum match score over the trace, `final_prompt`
is the generated prompt of the earliest iteration achieving that maximum
(every strictly earlier iteration scores strictly less), and `status` is
`success` exactly when that maximum meets the success threshold, else
`partial`. -/
theorem final_selection_is_earliest_argmax (cfg : OptimizerConfig)
    (env : LoopEnv) (req : OptimizationRequest) (r : OptimizationResult)
    (h : runOptimization cfg env req
        = Except.ok (r, RunOutcome.completed))
    (hne : r.iterations ≠ []) :
    ∃ (i : Nat) (it : OptimizationIteration),
      r.iterations.get? i = some it ∧
      r.final_match_score = it.evaluation.match_score ∧
      r.final_prompt = it.generated_prompt ∧
      (∀ (j : Nat) (jt : OptimizationIteration),
        r.iterations.get? j = some jt →
        jt.evaluation.match_score ≤ r.final_match_score) ∧
      (∀ (j : Nat) (jt : OptimizationIteration),
        r.iterations.get? j = some jt → j < i →
        jt.evaluation.match_score < r.final_match_score) ∧
      r.status = (if cfg.successThreshold ≤ r.final_match_score
        then "success" else "partial") := by
  by_cases hv : jsTrim req.expected_output.template = ""
  · simp [runOptimization, hv] at h
  · have h0 :
        (Except.ok (buildResult cfg req.expected_output
            (runLoop cfg env req.expected_output).1
            (runLoop cfg env req.expected_output).2,
          (runLoop cfg env req.expected_output).2)
          : Except OptimizeError (OptimizationResult × RunOutcome))
        = Except.ok (r, RunOutcome.completed) := by
      rw [← h]
      simp [runOptimization, hv]
    have hp := Except.ok.inj h0
    have h1 := congrArg Prod.fst hp
    have h2 := congrArg Prod.snd hp
    simp only at h1 h2
    rw [h2] at h1
    cases hbest : bestIteration (runLoop cfg env req.expected_output).1 with
    | none =>
      rw [← h1] at hne
      simp [buildResult, hbest, emptyRunResult] at hne
    | some best =>
      have htne : (runLoop cfg env req.expected_output).1 ≠ [] := by
        intro hE
        rw [hE] at hbest
        simp [bestIteration] at hbest
      obtain ⟨i, it, hget, heq, hmax, hstrict⟩ :=
        bestIteration_argmax _ htne
      have hbe : best = it := Option.some.inj (hbest.symm.trans heq)
      subst hbe
      subst h1
      refine ⟨i, best, ?_, ?_, ?_, ?_, ?_, ?_⟩
      · simpa [buildResult, hbest] using hget
      · simp [buildResult, hbest]
      · simp [buildResult, hbest]
      · intro j jt hj
        have hj2 := hmax j jt (by simpa [buildResult, hbest] using hj)
        simpa [buildResult, hbest] using hj2
      · intro j jt hj hji
        have hj2 := hstrict j jt (by simpa [buildResult, hbest] using hj) hji
        simpa [buildResult, hbest] using hj2
      · simp [buildResult, hbest]

/-- Witness for C1 at the sample run (first iteration scores 0.9, the rest 0;
the first iteration is selected and the run is a success). -/
theorem final_selection_is_earliest_argmax_witness :
    ∃ (i : Nat) (it : OptimizationIteration),
      sampleRunResult.iterations.get? i = some it ∧
      sampleRunResult.final_match_score = it.evaluation.match_score ∧
      sampleRunResult.final_prompt = it.generated_prompt ∧
      (∀ (j : Nat) (jt : OptimizationIteration),
        sampleRunResult.iterations.get? j = some jt →
        jt.evaluation.match_score ≤ sampleRunResult.final_match_score) ∧
      (∀ (j : Nat) (jt : OptimizationIteration),
        sampleRunResult.iterations.get? j = some jt → j < i →
        jt.evaluation.match_score < sampleRunResult.final_match_score) ∧
      sampleRunResult.status
        = (if defaultCfg.successThreshold
              ≤ sampleRunResult.final_match_score
           then "success" else "partial") :=
  final_selection_is_earliest_argmax defaultCfg firstOnlyEnv sampleReq
    sampleRunResult rfl (by decide)

/-- C2 counterexample: in `firstOnlyEnv` under the default configuration
(min 3, max 5) the very first iteration already meets the success threshold
and the run completes normally, yet it performs 5 iterations — not exactly
`min_iterations = 3` as the claim states. -/
theorem first_success_not_exactly_min_cex :
    ((runLoop defaultCfg firstOnlyEnv sampleSpecInput).1.get? 0).map
        (fun it => it.evaluation.is_successful) = some true ∧
    (runLoop defaultCfg firstOnlyEnv sampleSpecInput).2
      = RunOutcome.completed ∧
    (runLoop defaultCfg firstOnlyEnv sampleSpecInput).1.length = 5 ∧
    (runLoop defaultCfg firstOnlyEnv sampleSpecInput).1.length
      ≠ defaultCfg.minIterations := by decide

/-- C2 amended: the loop never terminates before `min_iterations` rounds (a
normally completed run has at least `min_iterations` iterations — so success
is never declared earlier), and a run whose evaluator meets the threshold at
every round (in particular already at round 1), with reliable generation and
non-repeating refinement, performs exactly `min_iterations` iterations;
first-round success alone does not bound the run to exactly the floor. -/
theorem min_floor_and_persistent_success_exact (cfg : OptimizerConfig)
    (env : LoopEnv) (spec : ExpectedOutput)
    (hle : cfg.minIterations ≤ cfg.maxIterations) :
    ((runLoop cfg env spec).2 = RunOutcome.completed →
      cfg.minIterations ≤ (runLoop cfg env spec).1.length) ∧
    ((∀ i out, cfg.successThreshold ≤ env.score i out) →
      (∀ i p, env.generate i p ≠ none) →
      (∀ q ev, env.refine q ev ≠ q) →
      1 ≤ cfg.minIterations →
      (runLoop cfg env spec).1.length = cfg.minIterations ∧
      (runLoop cfg env spec).2 = RunOutcome.completed) := by
  constructor
  · intro hout
    simp only [runLoop] at hout ⊢
    have hlem := loopGo_completed_min cfg env spec hle cfg.maxIterations 1
      env.initialQuery (by omega) hout
    omega
  · intro hth hgen hrefine hone
    simp only [runLoop]
    obtain ⟨ha, hb⟩ := loopGo_all_success cfg env spec hth hgen hrefine hle
      cfg.maxIterations 1 env.initialQuery (by omega) (by omega)
    exact ⟨by omega, hb⟩

/-- Witness for C2's amended statement: in `allSuccessEnv` (every round
succeeds) the default configuration runs exactly 3 iterations. -/
theorem min_floor_and_persistent_success_exact_witness :
    (runLoop defaultCfg allSuccessEnv sampleSpecInput).1.length
      = defaultCfg.minIterations ∧
    (runLoop defaultCfg allSuccessEnv sampleSpecInput).2
      = RunOutcome.completed :=
  (min_floor_and_persistent_success_exact defaultCfg allSuccessEnv
      sampleSpecInput (by decide)).2
    (fun i out => by
      show defaultCfg.successThreshold ≤ (1 : Rat)
      decide)
    (fun i p => by simp [allSuccessEnv])
    (fun q ev => append_plus_ne q)
    (by decide)

/-- C3: for every answered run, `total_iterations` equals the trace length;
recorded iteration indices are contiguous starting at 1; when no
unrecoverable external failure ended the run,
`min_iterations ≤ total_iterations ≤ max_iterations`; and a run truncated by
a fatal failure is flagged through `status = "partial"`, never silently. -/
theorem trace_invariants (cfg : OptimizerConfig) (env : LoopEnv)
    (req : OptimizationRequest) (r : OptimizationResult)
    (outcome : RunOutcome)
    (hone : 1 ≤ cfg.minIterations)
    (hle : cfg.minIterations ≤ cfg.maxIterations)
    (h : runOptimization cfg env req = Except.ok (r, outcome)) :
    r.total_iterations = r.iterations.length ∧
    (∀ (j : Nat) (jt : OptimizationIteration),
      r.iterations.get? j = some jt → jt.iteration = j + 1) ∧
    (outcome = RunOutcome.completed →
      cfg.minIterations ≤ r.total_iterations ∧
      r.total_iterations ≤ cfg.maxIterations) ∧
    (outcome ≠ RunOutcome.completed → r.status = "partial") := by
  by_cases hv : jsTrim req.expected_output.template = ""
  · simp [runOptimization, hv] at h
  · have h0 :
        (Except.ok (buildResult cfg req.expected_output
            (runLoop cfg env req.expected_output).1
            (runLoop cfg env req.expected_output).2,
          (runLoop cfg env req.expected_output).2)
          : Except OptimizeError (OptimizationResult × RunOutcome))
        = Except.ok (r, outcome) := by
      rw [← h]
      simp [runOptimization, hv]
    have hp := Except.ok.inj h0
    have h1 := congrArg Prod.fst hp
    have h2 := congrArg Prod.snd hp
    simp only at h1 h2
    subst h2
    subst h1
    refine ⟨?_, ?_, ?_, ?_⟩
    · cases hbest : bestIteration (runLoop cfg env req.expected_output).1
        with
      | none => simp [buildResult, hbest, emptyRunResult]
      | some best => simp [buildResult, hbest]
    · intro j jt hj
      cases hbest : bestIteration (runLoop cfg env req.expected_output).1
          with
      | none =>
        simp [buildResult, hbest, emptyRunResult] at hj
      | some best =>
        simp only [buildResult, hbest] at hj
        have hidx := loopGo_iteration_index cfg env req.expected_output
          cfg.maxIterations 1 env.initialQuery j jt
          (by simpa [runLoop] using hj)
        omega
    · intro hout
      have hmin := loopGo_completed_min cfg env req.expected_output hle
        cfg.maxIterations 1 env.initialQuery (by omega)
        (by simpa [runLoop] using hout)
      have hmax := loopGo_length_le cfg env req.expected_output
        cfg.maxIterations 1 env.initialQuery
      cases hbest : bestIteration (runLoop cfg env req.expected_output).1
          with
      | none =>
        exfalso
        have hE := bestIteration_eq_none_iff _ hbest
        rw [runLoop] at hE
        rw [hE] at hmin
        simp at hmin
        omega
      | some best =>
        simp only [buildResult, hbest]
        simp only [runLoop] at hmin hmax ⊢
        constructor
        · omega
        · exact hmax
    · intro hout
      cases hbest : bestIteration (runLoop cfg env req.expected_output).1
          with
      | none => simp [buildResult, hbest, emptyRunResult]
      | some best => simp [buildResult, hbest, hout]

/-- Witness for C3 at the sample run: 5 iterations, contiguous indices, and
bounds respected. -/
theorem trace_invariants_witness :
    sampleRunResult.total_iterations = sampleRunResult.iterations.length ∧
    (∀ (j : Nat) (jt : OptimizationIteration),
      sampleRunResult.iterations.get? j = some jt →
      jt.iteration = j + 1) ∧
    (RunOutcome.completed = RunOutcome.completed →
      defaultCfg.minIterations ≤ sampleRunResult.total_iterations ∧
      sampleRunResult.total_iterations ≤ defaultCfg.maxIterations) ∧
    (RunOutcome.completed ≠ RunOutcome.completed →
      sampleRunResult.status = "partial") :=
  trace_invariants defaultCfg firstOnlyEnv sampleReq sampleRunResult
    RunOutcome.completed (by decide) (by decide) rfl

/-- C4: two consecutively recorded iterations of any run never share a query
string (the loop never continues after a refinement that repeats), and a run
whose query refinement reproduces the previous query — before the iteration
floor is reached, so the loop would otherwise continue — is terminated with
the distinct `ConvergenceStall` outcome. -/
theorem refine_never_repeats (cfg : OptimizerConfig)
    (env stallEnv : LoopEnv) (spec : ExpectedOutput) (j : Nat)
    (it it1 : OptimizationIteration)
    (hadj : (runLoop cfg env spec).1.get? j = some it)
    (hadj1 : (runLoop cfg env spec).1.get? (j + 1) = some it1)
    (hid : ∀ q ev, stallEnv.refine q ev = q)
    (hgen : ∀ i p, stallEnv.generate i p ≠ none)
    (hmin : 2 ≤ cfg.minIterations)
    (hmax : 1 ≤ cfg.maxIterations) :
    it.query ≠ it1.query ∧
    (runLoop cfg stallEnv spec).2 = RunOutcome.convergenceStall := by
  constructor
  · exact loopGo_adjacent_queries cfg env spec cfg.maxIterations 1
      env.initialQuery j it it1 (by simpa [runLoop] using hadj)
      (by simpa [runLoop] using hadj1)
  · obtain ⟨f, hf⟩ : ∃ f, cfg.maxIterations = f + 1 :=
      ⟨cfg.maxIterations - 1, by omega⟩
    rw [runLoop, hf]
    cases hg : stallEnv.generate 1 (assemblePrompt cfg spec
        (stallEnv.retrieve 1 stallEnv.initialQuery)) with
    | none => exact absurd hg (hgen 1 _)
    | some output =>
      have hstop :
          stopCondition cfg 1 (evalOutput cfg stallEnv 1 output)
            = false := by
        have hnle : ¬ cfg.minIterations ≤ 1 := by omega
        simp [stopCondition, hnle]
      simp [loopGo, hg, hstop, hid]

/-- Witness for C4: adjacent queries of the sample run differ at position 0,
and the identity-refining environment stalls under the default
configuration. -/
theorem refine_never_repeats_witness :
    (traceAt 0).query ≠ (traceAt 1).query ∧
    (runLoop defaultCfg stallIdEnv sampleSpecInput).2
      = RunOutcome.convergenceStall :=
  refine_never_repeats defaultCfg firstOnlyEnv stallIdEnv sampleSpecInput 0
    (traceAt 0) (traceAt 1) (by decide) (by decide)
    (fun q ev => rfl)
    (fun i p => by simp [stallIdEnv])
    (by decide) (by decide)

end PromptStudio
